import Mathlib

/-!
Verification of the CasewiseMD diagnostic-session orchestrator.

This file gives a shallow embedding, in Lean 4, of the session-flow core of
the repository:

* `FlowStateMachine` and its transition table
  (src/mcp/orchestrator/flow_states.py),
* `SessionData` with its score aggregation methods
  (src/mcp/session/models.py),
* the in-memory session store and state manager
  (src/mcp/session/models.py, src/mcp/session/state_manager.py),
* the `SessionOrchestrator` operations `start_session`, `process_action`
  (with its four handlers) and `end_session`
  (src/mcp/orchestrator/session_orchestrator.py),
* the deterministic fallback grading path of `AIGradingService`
  (src/mcp/services/ai_grading.py) and the fallback of `GradingAgentV2`
  (src/mcp/agents/grading/grading_agent_v2.py).

Modelling conventions:

* Python floats carrying scores are modelled by `ℚ` (all scores involved are
  small decimal literals, for which rational arithmetic is exact); the
  fallback content scorer uses Python ints, modelled by `ℕ`.
* Python dicts (which preserve insertion order) are modelled by association
  lists `List (String × α)` with `dictGet` / `dictSet` / `dictRemove`.
* Timestamps (`created_at`, `updated_at`, `duration_minutes`) and free-form
  metadata maps are real-time / dynamically-typed values irrelevant to the
  claims and are omitted from the records.
* Mutation is modelled by value passing: each handler returns the mutated
  session, machine and store.  The store content equals the last value
  explicitly written to it (`create_session` / `update_session`); the
  in-memory Python backend additionally aliases the stored object, which
  does not change the verdict of any statement proved here.
* External I/O (the OpenAI calls) is modelled by an explicit parameter
  carrying the provider's response for the invocation; everything else is
  computed from the source code.
-/

namespace Casewise

/-! ## Flow state machine (src/mcp/orchestrator/flow_states.py) -/

/-- The `FlowState` enum of flow_states.py. -/
inductive FlowState where
  | INITIALIZED
  | CASE_LOADED
  | ASKING_DIAGNOSTIC
  | AWAITING_ANSWER
  | GRADING_ANSWER
  | DECIDING_FOLLOW_UP
  | ASKING_FOLLOW_UP
  | PROVIDING_TEACHING
  | SESSION_COMPLETE
  | ERROR
  deriving DecidableEq, Repr

/-- The string `.value` of each `FlowState` enum member. -/
def FlowState.value : FlowState → String
  | .INITIALIZED => "initialized"
  | .CASE_LOADED => "case_loaded"
  | .ASKING_DIAGNOSTIC => "asking_diagnostic"
  | .AWAITING_ANSWER => "awaiting_answer"
  | .GRADING_ANSWER => "grading_answer"
  | .DECIDING_FOLLOW_UP => "deciding_follow_up"
  | .ASKING_FOLLOW_UP => "asking_follow_up"
  | .PROVIDING_TEACHING => "providing_teaching"
  | .SESSION_COMPLETE => "session_complete"
  | .ERROR => "error"

/-- The `StateTransition` dataclass: one row of the transition table. -/
structure StateTransition where
  from_state : FlowState
  to_state : FlowState
  action : String
  condition : Option String := none
  deriving DecidableEq, Repr

/-- `FlowStateMachine._define_transitions`: the fixed transition table,
in source order.  Every machine instance carries this same list, so it is a
constant here. -/
def define_transitions : List StateTransition :=
  [ ⟨.INITIALIZED, .CASE_LOADED, "load_case", none⟩,
    ⟨.CASE_LOADED, .ASKING_DIAGNOSTIC, "start_questions", none⟩,
    ⟨.ASKING_DIAGNOSTIC, .AWAITING_ANSWER, "ask_question", none⟩,
    ⟨.AWAITING_ANSWER, .GRADING_ANSWER, "submit_answer", none⟩,
    ⟨.GRADING_ANSWER, .DECIDING_FOLLOW_UP, "grade_complete", none⟩,
    ⟨.DECIDING_FOLLOW_UP, .ASKING_FOLLOW_UP, "needs_follow_up", some "score < 0.7"⟩,
    ⟨.DECIDING_FOLLOW_UP, .ASKING_DIAGNOSTIC, "next_question", some "has_more_questions"⟩,
    ⟨.DECIDING_FOLLOW_UP, .SESSION_COMPLETE, "all_complete", some "no_more_questions"⟩,
    ⟨.ASKING_FOLLOW_UP, .AWAITING_ANSWER, "ask_follow_up", none⟩,
    ⟨.DECIDING_FOLLOW_UP, .PROVIDING_TEACHING, "provide_teaching", some "needs_teaching"⟩,
    ⟨.PROVIDING_TEACHING, .ASKING_DIAGNOSTIC, "continue_questions", some "has_more_questions"⟩,
    ⟨.PROVIDING_TEACHING, .SESSION_COMPLETE, "complete", some "no_more_questions"⟩,
    ⟨.ASKING_DIAGNOSTIC, .ERROR, "error", none⟩,
    ⟨.GRADING_ANSWER, .ERROR, "error", none⟩,
    ⟨.ERROR, .INITIALIZED, "reset", none⟩ ]

/-- The mutable part of a `FlowStateMachine` instance: current state and
(unbounded, in the source) state history. -/
structure FlowStateMachine where
  current_state : FlowState
  state_history : List FlowState
  deriving DecidableEq, Repr

/-- `FlowStateMachine.__init__`. -/
def FlowStateMachine.init : FlowStateMachine :=
  ⟨.INITIALIZED, [.INITIALIZED]⟩

/-- `FlowStateMachine.can_transition`: true iff a table row matches
(current state, target state, action). -/
def can_transition (m : FlowStateMachine) (to_state : FlowState) (action : String) : Bool :=
  define_transitions.any fun t =>
    decide (t.from_state = m.current_state ∧ t.to_state = to_state ∧ t.action = action)

/-- `FlowStateMachine.transition`: applies the transition and appends to the
history when `can_transition` holds, returning `true`; otherwise returns the
machine unchanged together with `false`.  The source signals invalidity only
through this boolean; it raises no exception. -/
def transition (m : FlowStateMachine) (to_state : FlowState) (action : String) :
    FlowStateMachine × Bool :=
  if can_transition m to_state action then
    (⟨to_state, m.state_history ++ [to_state]⟩, true)
  else
    (m, false)

/-- `FlowStateMachine.get_valid_actions`: the actions of all table rows whose
source state is the current state (the source returns them as a set; only
membership is ever used, so a list models it). -/
def get_valid_actions (m : FlowStateMachine) : List String :=
  (define_transitions.filter fun t => decide (t.from_state = m.current_state)).map
    (·.action)

/-! ## Association-list model of Python dicts -/

/-- Lookup in an insertion-ordered dict. -/
def dictGet {α : Type} (k : String) : List (String × α) → Option α
  | [] => none
  | e :: rest => if e.1 = k then some e.2 else dictGet k rest

/-- `d[k] = v`: replace the entry if the key is present, else append. -/
def dictSet {α : Type} (k : String) (v : α) : List (String × α) → List (String × α)
  | [] => [(k, v)]
  | e :: rest => if e.1 = k then (k, v) :: rest else e :: dictSet k v rest

/-- `del d[k]` (dict keys are unique, so removing every occurrence agrees
with deleting the entry). -/
def dictRemove {α : Type} (k : String) (l : List (String × α)) : List (String × α) :=
  l.filter fun e => !(decide (e.1 = k))

theorem dictGet_dictSet_self {α : Type} (k : String) (v : α) (l : List (String × α)) :
    dictGet k (dictSet k v l) = some v := by
  induction l with
  | nil => simp [dictGet, dictSet]
  | cons e rest ih =>
      by_cases h : e.1 = k
      · simp [dictGet, dictSet, h]
      · simp [dictGet, dictSet, h, ih]

theorem dictGet_dictSet_other {α : Type} (k k' : String) (v : α) (l : List (String × α))
    (hne : k' ≠ k) : dictGet k' (dictSet k v l) = dictGet k' l := by
  have hkk : ¬(k = k') := fun h => hne h.symm
  induction l with
  | nil => simp [dictGet, dictSet, hkk]
  | cons e rest ih =>
      by_cases h : e.1 = k
      · subst h
        simp [dictGet, dictSet, hkk]
      · by_cases h' : e.1 = k'
        · simp [dictGet, dictSet, h, h', hne]
        · simp [dictGet, dictSet, h, h', ih]

theorem dictGet_dictRemove_self {α : Type} (k : String) (l : List (String × α)) :
    dictGet k (dictRemove k l) = none := by
  induction l with
  | nil => simp [dictGet, dictRemove]
  | cons e rest ih =>
      by_cases h : e.1 = k
      · simpa [dictRemove, h] using ih
      · simpa [dictRemove, dictGet, h] using ih

/-! ## Core data models (src/mcp/core/models.py, src/mcp/session/models.py) -/

/-- The `SessionState` enum of core/models.py. -/
inductive SessionState where
  | INITIALIZED
  | CASE_LOADED
  | QUESTIONING
  | GRADING
  | FOLLOW_UP
  | TEACHING
  | COMPLETED
  | ERROR
  deriving DecidableEq, Repr

/-- `Question` (core/models.py); the `type`, `rubric_category`, `metadata` and
`created_at` fields are never consulted by the claims and are omitted. -/
structure Question where
  id : String
  category : String
  text : String
  deriving DecidableEq, Repr

/-- `Answer` (core/models.py), without `timestamp`/`metadata`. -/
structure Answer where
  question_id : String
  session_id : String
  text : String
  deriving DecidableEq, Repr

/-- `GradingResult` (core/models.py), without `max_score`/`rubric_scores`/
`metadata`. -/
structure GradingResult where
  question_id : String
  answer_id : String
  score : ℚ
  feedback : String
  strengths : List String
  weaknesses : List String
  suggestions : List String
  needs_follow_up : Bool
  deriving DecidableEq, Repr

/-- `TeachingPoint` (core/models.py), restricted to the fields the
`get_feedback` handler sets. -/
structure TeachingPoint where
  id : String
  topic : String
  content : String
  references : List String
  deriving DecidableEq, Repr

/-- `SessionData` (session/models.py).  `available_questions` models
`metadata["available_questions"]`, the question list the QuestionAgent
stashes in the session's metadata map; timestamps, `time_per_question` and
the rest of the metadata map are omitted. -/
structure SessionData where
  session_id : String
  case_id : String
  user_id : Option String
  state : SessionState
  current_question_index : ℕ
  total_questions : ℕ
  questions_asked : List Question
  answers : List Answer
  grades : List GradingResult
  follow_up_questions : List Question
  teaching_points : List TeachingPoint
  available_questions : List Question
  deriving DecidableEq, Repr

/-- The field defaults of a freshly constructed `SessionData`
(`current_question_index = 0`, `total_questions = 7`, empty lists,
state `INITIALIZED`). -/
def SessionData.new (session_id case_id : String) (user_id : Option String) : SessionData :=
  { session_id := session_id
    case_id := case_id
    user_id := user_id
    state := .INITIALIZED
    current_question_index := 0
    total_questions := 7
    questions_asked := []
    answers := []
    grades := []
    follow_up_questions := []
    teaching_points := []
    available_questions := [] }

/-- `SessionData.add_question` (timestamp update omitted). -/
def SessionData.add_question (s : SessionData) (q : Question) : SessionData :=
  { s with questions_asked := s.questions_asked ++ [q] }

/-- `SessionData.add_answer`. -/
def SessionData.add_answer (s : SessionData) (a : Answer) : SessionData :=
  { s with answers := s.answers ++ [a] }

/-- `SessionData.add_grade`. -/
def SessionData.add_grade (s : SessionData) (g : GradingResult) : SessionData :=
  { s with grades := s.grades ++ [g] }

/-- `SessionData.get_average_score`: `0.0` with no grades, else the plain
arithmetic mean of the recorded grade scores. -/
def SessionData.get_average_score (s : SessionData) : ℚ :=
  if s.grades.isEmpty then 0
  else (s.grades.map (·.score)).sum / s.grades.length

/-- The (category, score) pairs walked by `get_category_scores`: grade `i`
is paired with `questions_asked[i]`; grades with no question at their index
are skipped, exactly as the `if i < len(self.questions_asked)` guard does. -/
def SessionData.gradeCategoryPairs (s : SessionData) : List (String × ℚ) :=
  (s.grades.zip s.questions_asked).map fun p => (p.2.category, p.1.score)

/-- One iteration of the `get_category_scores` loop body on the combined
(sum, count) dict: `category_scores[category] += grade.score` and
`category_counts[category] += 1`, initialising absent keys to zero. -/
def addCatScore (cat : String) (sc : ℚ) : List (String × ℚ × ℕ) → List (String × ℚ × ℕ)
  | [] => [(cat, (sc, 1))]
  | e :: rest =>
      if e.1 = cat then (e.1, (e.2.1 + sc, e.2.2 + 1)) :: rest
      else e :: addCatScore cat sc rest

/-- `SessionData.get_category_scores`: accumulate per-category sums and
counts over the positionally paired (question category, grade score) list,
then divide each sum by its count. -/
def SessionData.get_category_scores (s : SessionData) : List (String × ℚ) :=
  ((s.gradeCategoryPairs.foldl (fun acc p => addCatScore p.1 p.2 acc) []).map
    fun e => (e.1, e.2.1 / (e.2.2 : ℚ)))

/-! ## Session store and state manager
(src/mcp/session/models.py `SessionStore`, src/mcp/session/state_manager.py,
in-memory backend) -/

/-- `SessionStateManager.update_session(self, session_data)` — note the
SINGLE `session_data` parameter: it re-stores the session under its own
`session_id`, succeeding only when that key is already present (the
timestamp refresh is omitted).  The orchestrator, however, always calls it
as `self.session_manager.update_session(session_id, session_data)` with TWO
arguments, which in Python raises `TypeError` before this body ever runs;
see `TYPE_ERROR_UPDATE` below. -/
def update_session (s : SessionData) (store : List (String × SessionData)) :
    List (String × SessionData) × Bool :=
  if (dictGet s.session_id store).isSome then (dictSet s.session_id s store, true)
  else (store, false)

/-- The `TypeError` raised at every orchestrator persist site
(`session_orchestrator.py` lines 96, 178, 193, 223, 229, 299, 311, 320,
344): `update_session` accepts one positional argument besides `self`, but
the orchestrator passes two, so the call raises before any store write. -/
def TYPE_ERROR_UPDATE : String :=
  "TypeError: update_session() takes 2 positional arguments but 3 were given"

/-! ## Session orchestrator (src/mcp/orchestrator/session_orchestrator.py) -/

/-- The orchestrator's own state: the session store, the per-session state
machines and the follow-up threshold. -/
structure Orchestrator where
  sessions : List (String × SessionData)
  machines : List (String × FlowStateMachine)
  follow_up_threshold : ℚ
  deriving DecidableEq, Repr

/-- `SessionOrchestrator.__init__`: empty store, empty machine map,
`follow_up_threshold = 0.7`. -/
def Orchestrator.init : Orchestrator :=
  { sessions := [], machines := [], follow_up_threshold := 7/10 }

/-- The discriminated (`status` field) results the four handlers return.
`errorResult` is the structured `{status: "error", message}` dict;
the other constructors carry the payload fields of the corresponding
branch (the `progress` float of the question payload is derivable from
`question_number`/`total_questions` and omitted). -/
inductive ActionResult where
  | errorResult (message : String)
  | ready (message : String) (total_questions : ℕ)
  | completeMarker (message : String)
  | questionPayload (question : Question) (question_number total_questions : ℕ)
  | follow_up_needed (score : ℚ) (feedback : String) (message : String)
  | next_question (score : ℚ) (feedback : String)
  | completeResult (score : ℚ) (feedback : String)
  | teaching_delivered (teaching : TeachingPoint)
  deriving DecidableEq, Repr

/-- The exceptions `process_action` / `end_session` can raise: the
orchestrator's own error classes (core/exceptions.py), carrying the
constructor arguments of the source exception classes, plus the Python
`TypeError` every persist call raises (see `TYPE_ERROR_UPDATE`). -/
inductive OrchestratorError where
  | sessionNotFound (session_id : String)
  | invalidStateTransition (current_state attempted_state : String)
  | unknownAction (action : String)
  | typeError (message : String)
  deriving DecidableEq, Repr

/-- The outcome of `QuestionAgent._get_next_question` (pure given the
session): a failure response, the completion marker (success with
`metadata.complete`), or the next question together with the session it
mutated by `add_question`. -/
inductive QuestionAgentResponse where
  | failure (error : String)
  | completeMarker
  | nextQuestion (session : SessionData) (question : Question)
      (question_number total_questions : ℕ)
  deriving DecidableEq, Repr

/-- `QuestionAgent._get_next_question`
(src/mcp/agents/questions/question_agent.py): no available questions is a
failure; an index at or past the end yields the completion marker; otherwise
the question at `current_question_index` is appended to `questions_asked`
and returned with its 1-based number and the total count. -/
def get_next_question (s : SessionData) : QuestionAgentResponse :=
  if s.available_questions.isEmpty then
    .failure "No questions available. Please load case questions first."
  else if s.available_questions.length ≤ s.current_question_index then
    .completeMarker
  else
    match s.available_questions.get? s.current_question_index with
    | some q =>
        .nextQuestion (s.add_question q) q (s.current_question_index + 1)
          s.available_questions.length
    | none => .failure "Failed to get next question: index out of range"

/-- The parsed `grading_result` dict of a successful GradingAgent response:
`score`, `feedback`, the three string lists, and the optional
`needs_follow_up` override. -/
structure GradeData where
  score : ℚ
  feedback : String
  strengths : List String
  weaknesses : List String
  suggestions : List String
  needs_follow_up : Option Bool
  deriving DecidableEq, Repr

/-- The `data` dict passed to `submit_answer`
(`data.get("answer", "")`, `data.get("question_id", "")`). -/
structure SubmitData where
  answer : String
  question_id : String
  deriving DecidableEq, Repr

/-- `SessionOrchestrator._handle_start_questions`: transitions the machine
(mutated in place, so the change is visible in the machine map) and sets the
session state — then reaches the broken persist call
`self.session_manager.update_session(session_id, session_data)` (line 193),
which raises `TypeError`; the `ready` result at lines 195-199 is never
returned and the store is never written. -/
def handle_start_questions (o : Orchestrator) (session_id : String)
    (_s : SessionData) (m : FlowStateMachine) :
    Orchestrator × Except String ActionResult :=
  let m := (transition m .ASKING_DIAGNOSTIC "start_questions").1
  ({ o with machines := dictSet session_id m o.machines },
   .error TYPE_ERROR_UPDATE)

/-- `SessionOrchestrator._handle_get_question`: a failed provider response is
returned as a structured error without touching machine or store.  On the
completion marker the machine transitions to `SESSION_COMPLETE`, and on a
question it transitions to `AWAITING_ANSWER` — but both branches then reach
the broken persist call (lines 223/229), which raises `TypeError` before the
payload is returned. -/
def handle_get_question (o : Orchestrator) (session_id : String)
    (s : SessionData) (m : FlowStateMachine) :
    Orchestrator × Except String ActionResult :=
  match get_next_question s with
  | .failure err => (o, .ok (.errorResult ("Failed to get question: " ++ err)))
  | .completeMarker =>
      let m := (transition m .SESSION_COMPLETE "all_complete").1
      ({ o with machines := dictSet session_id m o.machines },
       .error TYPE_ERROR_UPDATE)
  | .nextQuestion _s' _q _number _total =>
      let m := (transition m .AWAITING_ANSWER "ask_question").1
      ({ o with machines := dictSet session_id m o.machines },
       .error TYPE_ERROR_UPDATE)

/-- `SessionOrchestrator._handle_submit_answer`: records the answer,
transitions to `GRADING_ANSWER`, then consults the grading agent.  A failed
grading response is surfaced as a structured error — note the machine has
already advanced and the answer is already recorded at that point.  On
success the grade is recorded and the machine moves through
`DECIDING_FOLLOW_UP` into the follow-up / next-question / complete branch,
incrementing `current_question_index` on the latter two — but every one of
these branches then reaches the broken persist call (lines 299/311/320),
which raises `TypeError`, so the `follow_up_needed` / `next_question` /
`complete` result dicts are never returned and the store is never written.
`grading` carries the agent's response for this invocation (the OpenAI call
is external I/O). -/
def handle_submit_answer (o : Orchestrator) (session_id : String) (data : SubmitData)
    (s : SessionData) (m : FlowStateMachine) (grading : Except String GradeData) :
    Orchestrator × Except String ActionResult :=
  let answer : Answer := ⟨data.question_id, session_id, data.answer⟩
  let s := s.add_answer answer
  let m := (transition m .GRADING_ANSWER "submit_answer").1
  let s := { s with state := SessionState.GRADING }
  match grading with
  | .error err =>
      ({ o with machines := dictSet session_id m o.machines },
       .ok (.errorResult ("Failed to grade answer: " ++ err)))
  | .ok g =>
      let grading_result : GradingResult :=
        { question_id := data.question_id
          answer_id := answer.question_id
          score := g.score
          feedback := g.feedback
          strengths := g.strengths
          weaknesses := g.weaknesses
          suggestions := g.suggestions
          needs_follow_up := g.needs_follow_up.getD (decide (g.score < o.follow_up_threshold)) }
      let s := s.add_grade grading_result
      let m := (transition m .DECIDING_FOLLOW_UP "grade_complete").1
      if g.score < o.follow_up_threshold then
        let m := (transition m .ASKING_FOLLOW_UP "needs_follow_up").1
        ({ o with machines := dictSet session_id m o.machines },
         .error TYPE_ERROR_UPDATE)
      else
        let s := { s with current_question_index := s.current_question_index + 1 }
        if s.current_question_index < s.total_questions then
          let m := (transition m .ASKING_DIAGNOSTIC "next_question").1
          ({ o with machines := dictSet session_id m o.machines },
           .error TYPE_ERROR_UPDATE)
        else
          let m := (transition m .SESSION_COMPLETE "all_complete").1
          ({ o with machines := dictSet session_id m o.machines },
           .error TYPE_ERROR_UPDATE)

/-- `SessionOrchestrator._handle_get_feedback`: appends a stub teaching
point and sets the session state to `TEACHING` (no machine transition in the
source) — then reaches the broken persist call (line 344), which raises
`TypeError`; the teaching result is never returned. -/
def handle_get_feedback (o : Orchestrator) (_session_id : String)
    (_s : SessionData) (_m : FlowStateMachine) :
    Orchestrator × Except String ActionResult :=
  (o, .error TYPE_ERROR_UPDATE)

/-- `SessionOrchestrator.process_action`: session lookup (raising
`SessionNotFoundError` when absent), state-machine lookup, validity check of
the action against `get_valid_actions` (raising `InvalidStateTransition`
naming the current state's value and `action: <name>`), then dispatch on the
action string; a `TypeError` raised inside a handler propagates. -/
def process_action (o : Orchestrator) (session_id action : String) (data : SubmitData)
    (grading : Except String GradeData) :
    Orchestrator × Except OrchestratorError ActionResult :=
  match dictGet session_id o.sessions with
  | none => (o, .error (.sessionNotFound session_id))
  | some session_data =>
    match dictGet session_id o.machines with
    | none =>
        (o, .error (.sessionNotFound ("State machine not found for session " ++ session_id)))
    | some state_machine =>
        if (get_valid_actions state_machine).contains action then
          if action = "start_questions" then
            let (o', r) := handle_start_questions o session_id session_data state_machine
            (o', r.mapError .typeError)
          else if action = "get_question" then
            let (o', r) := handle_get_question o session_id session_data state_machine
            (o', r.mapError .typeError)
          else if action = "submit_answer" then
            let (o', r) :=
              handle_submit_answer o session_id data session_data state_machine grading
            (o', r.mapError .typeError)
          else if action = "get_feedback" then
            let (o', r) := handle_get_feedback o session_id session_data state_machine
            (o', r.mapError .typeError)
          else (o, .error (.unknownAction action))
        else
          (o, .error (.invalidStateTransition state_machine.current_state.value
                        ("action: " ++ action)))

/-- The provider outcomes `start_session` depends on: success/failure of the
CaseAgent call and the question list the QuestionAgent loads (or its
error). -/
structure StartSessionEnv where
  case_success : Bool
  case_error : String
  questions : Except String (List Question)
  deriving Repr

/-- `SessionOrchestrator.start_session`: creates and stores the session
(`create_session` persists immediately), installs a fresh state machine,
transitions to `CASE_LOADED`, then calls the Case and Question agents.
Either agent failing raises — with the session still stored.  On success the
QuestionAgent has cleared `questions_asked`, set `total_questions` and
stashed the loaded questions in the session object — but the re-persist call
`self.session_manager.update_session(session_id, session_data)` (line 96)
raises `TypeError`, so `start_session` never returns the `session_id`. -/
def start_session (o : Orchestrator) (session_id case_id : String)
    (user_id : Option String) (env : StartSessionEnv) :
    Orchestrator × Except String String :=
  let session_data := SessionData.new session_id case_id user_id
  let sessions := dictSet session_id session_data o.sessions
  let state_machine := FlowStateMachine.init
  let machines := dictSet session_id state_machine o.machines
  let state_machine := (transition state_machine .CASE_LOADED "load_case").1
  let machines := dictSet session_id state_machine machines
  let session_data := { session_data with state := SessionState.CASE_LOADED }
  let o := { o with sessions := sessions, machines := machines }
  if env.case_success = false then
    (o, .error ("Failed to load case info: " ++ env.case_error))
  else
    match env.questions with
    | .error err => (o, .error ("Failed to load questions: " ++ err))
    | .ok qs =>
        let _session_data :=
          { session_data with questions_asked := [], total_questions := qs.length,
                              available_questions := qs }
        (o, .error TYPE_ERROR_UPDATE)

/-- `SessionOrchestrator.end_session`: computes overall and per-category
scores from the session and builds the summary dict — but the persist call
`self.session_manager.update_session(session_id, session_data)` (line 178)
raises `TypeError`, so the summary is never returned and the state-machine
deletion at lines 181-182 is unreachable. -/
def end_session (o : Orchestrator) (session_id : String) :
    Orchestrator × Except OrchestratorError Unit :=
  match dictGet session_id o.sessions with
  | none => (o, .error (.sessionNotFound session_id))
  | some session_data =>
      let _overall_score := session_data.get_average_score
      let _category_scores := session_data.get_category_scores
      (o, .error (.typeError TYPE_ERROR_UPDATE))

/-! ## Fallback grading path (src/mcp/services/ai_grading.py) -/

/-- Does the first character list start with the second? -/
def charsStartWith : List Char → List Char → Bool
  | _, [] => true
  | [], _ :: _ => false
  | h :: t, p :: ps => decide (h = p) && charsStartWith t ps

/-- Does the second character list occur contiguously in the first? -/
def charsContain (pat : List Char) : List Char → Bool
  | [] => pat.isEmpty
  | h :: t => charsStartWith (h :: t) pat || charsContain pat t

/-- Python `term in text`: substring containment.  (Implemented on character
lists by structural recursion so that concrete instances evaluate by
`decide`.) -/
def strContainsSub (hay pat : String) : Bool :=
  charsContain pat.data hay.data

/-- Python `text.strip()` on character lists: drop leading and trailing
whitespace. -/
def trimChars (l : List Char) : List Char :=
  ((l.dropWhile Char.isWhitespace).reverse.dropWhile Char.isWhitespace).reverse

/-- Python `text.strip()`. -/
def strTrim (s : String) : String :=
  String.mk (trimChars s.data)

/-- Python `text.lower()` (ASCII, which covers the vocabularies checked). -/
def strToLower (s : String) : String :=
  String.mk (s.data.map Char.toLower)

/-- Helper of `wordCount`: counts maximal non-whitespace runs, `inWord`
recording whether the previous character was part of a word. -/
def wordCountAux (inWord : Bool) : List Char → ℕ
  | [] => 0
  | c :: t =>
      if c.isWhitespace then wordCountAux false t
      else (if inWord then 0 else 1) + wordCountAux true t

/-- Python `len(text.split())`: the number of whitespace-separated words. -/
def wordCount (s : String) : ℕ :=
  wordCountAux false s.data

/-- The gibberish vocabulary of `_calculate_content_score`. -/
def gibberish_terms : List String :=
  ["lorem", "ipsum", "dolor", "sit", "amet", "test", "testing", "xyz",
   "asdf", "qwerty", "hello", "world", "yo", "sup", "what", "huh", "umm",
   "asd", "zxc", "qwe", "rty", "fgh", "dfg", "cvb", "bnm"]

/-- The medical vocabulary of `_calculate_content_score`. -/
def medical_terms : List String :=
  ["imaging", "findings", "diagnosis", "differential", "clinical", "patient",
   "medical", "treatment", "management", "follow", "workup", "test", "scan",
   "ct", "mri", "ultrasound", "radiologist", "physician", "doctor", "hospital",
   "disease", "condition", "symptoms", "signs", "abnormal", "normal", "study",
   "examination", "evaluation", "assessment", "recommendation", "consultation",
   "ovarian", "cancer", "malignancy", "tumor", "mass", "peritoneal", "ascites",
   "metastasis", "staging", "oncology", "gynecology", "radiology", "abdominal",
   "pelvic", "contrast", "enhancement", "biopsy", "surgery", "chemotherapy"]

/-- `AIGradingService._calculate_content_score`: the deterministic fallback
content scorer.  Empty/whitespace-only answers score 0; answers whose
lowercased text contains more than two gibberish terms score 0; other
answers of fewer than 10 words score 25; longer answers are scored from
word count and the number of matched medical terms, each branch capped by a
`min`.  (Lean's `String.toLower` lowercases ASCII, which covers the
vocabularies involved.) -/
def calculate_content_score (answer : String) : ℕ :=
  if strTrim answer = "" then 0
  else
    let answer_lower := strTrim (strToLower answer)
    let word_count := wordCount answer
    let gibberish_count :=
      (gibberish_terms.filter fun t => strContainsSub answer_lower t).length
    if 2 < gibberish_count then 0
    else if word_count < 10 then 25
    else
      let medical_term_count :=
        (medical_terms.filter fun t => strContainsSub answer_lower t).length
      if word_count < 50 ∧ medical_term_count < 10 then
        min 40 (20 + medical_term_count * 2)
      else if 100 ≤ word_count ∧ 15 ≤ medical_term_count then
        min 85 (60 + medical_term_count)
      else if 50 ≤ word_count ∧ 10 ≤ medical_term_count then
        min 75 (45 + medical_term_count * 2)
      else if 25 ≤ word_count ∧ 5 ≤ medical_term_count then
        min 65 (35 + medical_term_count * 3)
      else
        min 45 (25 + medical_term_count * 4)

/-- `AIGradingService._generate_fallback_feedback` (its `answer` argument is
unused in the source). -/
def generate_fallback_feedback (_answer category : String) (score : ℕ) : String :=
  if score < 30 then
    "Insufficient response for " ++ category ++ ". Please provide more detailed medical analysis."
  else if score < 50 then
    "Basic response for " ++ category ++
      ". Consider including more specific medical terminology and detailed analysis."
  else if score < 70 then
    "Good effort on " ++ category ++
      ". Work on providing more comprehensive and systematic evaluation."
  else
    "Strong response for " ++ category ++
      ". Good use of medical terminology and systematic approach."

/-- The default per-question rubric categories of the fallback grader. -/
def default_categories : List String :=
  ["Image Interpretation", "Differential Diagnosis", "Clinical Correlation",
   "Management Recommendations", "Communication & Organization",
   "Professional Judgment", "Safety Considerations"]

/-- `default_categories[step - 1] if step <= len(default_categories) else
f"Question {step}"`.  For `step = 0` Python's `[-1]` indexing yields the
last category. -/
def category_for_step (step : ℕ) : String :=
  if step ≤ default_categories.length then
    if step = 0 then "Safety Considerations"
    else (default_categories.get? (step - 1)).getD ""
  else "Question " ++ toString step

/-- One per-category entry of the fallback grader's `category_scores` dict
(in the fallback, `percentage` always equals `score`). -/
structure CatScore where
  score : ℕ
  percentage : ℕ
  feedback : String
  deriving DecidableEq, Repr

/-- The feedback text the fallback grader records for a skipped answer. -/
def skipped_feedback : String :=
  "Question was skipped by student. No assessment possible."

/-- The skip sentinel. -/
def SKIP_SENTINEL : String := "[SKIPPED]"

/-- The `category_scores` dict built by `AIGradingService._fallback_grading`
over answers keyed by integer question numbers: a skipped answer is entered
with score and percentage 0 and the skipped feedback; any other answer is
scored by `calculate_content_score`.  (The running `total_score`, the
strengths / areas-for-improvement lists and the non-integer-key `except`
branch are not consulted by any claim and are omitted.) -/
def fallback_category_scores (answers : List (ℕ × String)) : List (String × CatScore) :=
  answers.foldl
    (fun acc p =>
      let category := category_for_step p.1
      let entry : CatScore :=
        if strTrim p.2 = SKIP_SENTINEL then ⟨0, 0, skipped_feedback⟩
        else
          let score := calculate_content_score p.2
          ⟨score, score, generate_fallback_feedback p.2 category score⟩
      dictSet category entry acc)
    []

/-- The static per-category follow-up templates of
`_generate_fallback_follow_up`. -/
def category_questions : List (String × String) :=
  [ ("Image Interpretation",
     "What specific imaging findings would you look for in this type of case?"),
    ("Differential Diagnosis",
     "What are the most common differential diagnoses for these imaging findings?"),
    ("Clinical Correlation",
     "How would you correlate these imaging findings with clinical presentation?"),
    ("Management Recommendations",
     "What would be your recommended next steps for patient management?"),
    ("Communication & Organization",
     "How would you present these findings to the referring physician?"),
    ("Professional Judgment",
     "What factors would influence your clinical decision-making in this case?"),
    ("Safety Considerations",
     "What safety considerations should be addressed in this case?") ]

/-- `AIGradingService._generate_fallback_follow_up` (its `case_id` argument
is unused in the source). -/
def generate_fallback_follow_up (category : String) (_case_id : String) : String :=
  (dictGet category category_questions).getD
    ("Please provide additional thoughts on " ++ category ++ " for this case.")

/-- The follow-up loop at the end of `_fallback_grading`: one entry
`(category, question, score)` for EVERY category whose percentage is below
70, in dict order — no sorting and no limit of two. -/
def fallback_follow_ups (category_scores : List (String × CatScore)) (case_id : String) :
    List (String × String × ℕ) :=
  (category_scores.filter fun p => decide (p.2.percentage < 70)).map fun p =>
    (p.1, generate_fallback_follow_up p.1 case_id, p.2.percentage)

/-- One weak-category record of `_generate_follow_up_questions`. -/
structure WeakCategory where
  category : String
  score : ℚ
  feedback : String
  deriving DecidableEq, Repr

/-- The weak-category list of `_generate_follow_up_questions`: the
categories whose percentage is below 70, in dict order, with their
percentage and feedback. -/
def weak_categories (category_scores : List (String × ℚ × String)) : List WeakCategory :=
  (category_scores.filter fun p => decide (p.2.1 < 70)).map fun p =>
    ⟨p.1, p.2.1, p.2.2⟩

/-- Stable insertion of one element into a score-ascending list: an element
moves past every earlier element with a strictly smaller score and lands
before the first one with an equal or larger score. -/
def insertByScore (x : WeakCategory) : List WeakCategory → List WeakCategory
  | [] => [x]
  | y :: ys => if x.score ≤ y.score then x :: y :: ys else y :: insertByScore x ys

/-- Stable ascending sort by score — the behaviour of Python's stable
`sorted(weak_categories, key=score)`. -/
def sortByScore : List WeakCategory → List WeakCategory
  | [] => []
  | x :: xs => insertByScore x (sortByScore xs)

/-- The category selection of `_generate_follow_up_questions` (generative
path): the weak categories, stable-sorted ascending by score, limited to the
first two. -/
def selected_weak_categories (category_scores : List (String × ℚ × String)) :
    List WeakCategory :=
  (sortByScore (weak_categories category_scores)).take 2

/-! ## GradingAgentV2 fallback
(src/mcp/agents/grading/grading_agent_v2.py) -/

/-- `GradingAgentV2._get_fallback_grading`: the fixed grading dict returned
whenever the OpenAI call raises — score 0.75 regardless of the answer
text. -/
def get_fallback_grading : GradeData :=
  { score := 3/4
    feedback := "AI grading temporarily unavailable. Manual review recommended."
    strengths := ["Response provided"]
    weaknesses := ["Requires manual evaluation"]
    suggestions := ["Please review with attending physician"]
    needs_follow_up := some false }

/-! ## Concrete fixtures used by witnesses -/

/-- A freshly created sample session. -/
def sampleSession : SessionData := SessionData.new "s1" "case001" none

/-- A state machine that has reached `CASE_LOADED`. -/
def machineCaseLoaded : FlowStateMachine :=
  ⟨.CASE_LOADED, [.INITIALIZED, .CASE_LOADED]⟩

/-- A state machine that awaits an answer. -/
def machineAwaiting : FlowStateMachine :=
  ⟨.AWAITING_ANSWER, [.AWAITING_ANSWER]⟩

/-- A sample orchestrator holding `sampleSession` under a `CASE_LOADED`
machine.  Its threshold is the integer 0 so that concrete branch conditions
reduce inside the kernel. -/
def sampleOrch : Orchestrator :=
  { sessions := [("s1", sampleSession)]
    machines := [("s1", machineCaseLoaded)]
    follow_up_threshold := 0 }

/-! ## Helper lemmas -/

theorem list_contains_iff_mem (l : List String) (a : String) :
    l.contains a = true ↔ a ∈ l :=
  List.elem_iff

/-! ## Claim theorems -/

/-- C8 (amended): `can_transition(to, action)` is true iff a transition-table
row matches (current_state, to, action); when it is true, `transition`
changes the state and appends it to the history and reports `true`; when it
is false, `transition` leaves the machine completely unchanged and reports
`false`.  (The source signals invalidity only through this boolean return;
no `InvalidTransition` error naming state and action is produced at this
level — the orchestrator's `process_action` raises
`InvalidStateTransition` separately, see C2.) -/
theorem flow_machine_transition_correct (m : FlowStateMachine) (to_state : FlowState)
    (a : String) :
    (can_transition m to_state a = true ↔
      ∃ t ∈ define_transitions,
        t.from_state = m.current_state ∧ t.to_state = to_state ∧ t.action = a)
    ∧ (can_transition m to_state a = true →
        transition m to_state a =
          (⟨to_state, m.state_history ++ [to_state]⟩, true))
    ∧ (can_transition m to_state a = false →
        transition m to_state a = (m, false)) := by
  refine ⟨?_, ?_, ?_⟩
  · unfold can_transition
    rw [List.any_eq_true]
    constructor
    · rintro ⟨t, ht, hd⟩
      exact ⟨t, ht, of_decide_eq_true hd⟩
    · rintro ⟨t, ht, hd⟩
      exact ⟨t, ht, decide_eq_true hd⟩
  · intro h
    simp [transition, h]
  · intro h
    simp [transition, h]

/-- Witness for C8's amended theorem at a concrete invalid request. -/
theorem flow_machine_transition_correct_witness :
    can_transition FlowStateMachine.init .SESSION_COMPLETE "nope" = false ∧
    transition FlowStateMachine.init .SESSION_COMPLETE "nope" =
      (FlowStateMachine.init, false) :=
  ⟨by decide,
   (flow_machine_transition_correct FlowStateMachine.init .SESSION_COMPLETE "nope").2.2
     (by decide)⟩

/-- C8 counterexample: an invalid `transition` returns the bare pair
(unchanged machine, `false`).  Two invalid requests with different action
names produce identical results, so the outcome cannot be a signal naming
the requested action, and no `InvalidTransition` error value exists in the
source's return type — refuting the claim that attempting an invalid
transition "signals InvalidTransition naming the current state and the
requested action". -/
theorem flow_machine_no_invalid_transition_signal :
    transition FlowStateMachine.init .SESSION_COMPLETE "submit_answer" =
      (FlowStateMachine.init, false) ∧
    transition FlowStateMachine.init .SESSION_COMPLETE "bogus_action" =
      (FlowStateMachine.init, false) ∧
    "submit_answer" ≠ "bogus_action" := by
  decide

/-- C2: `process_action` on an unknown `session_id` raises
`SessionNotFoundError`; on an existing session (with its machine) and an
action outside the machine's valid-action set it raises
`InvalidStateTransition` — naming the current state and the action — and
returns the orchestrator unchanged, so the state machine's current state is
untouched. -/
theorem process_action_error_paths (o : Orchestrator) (session_id action : String)
    (data : SubmitData) (grading : Except String GradeData) :
    (dictGet session_id o.sessions = none →
      process_action o session_id action data grading =
        (o, .error (.sessionNotFound session_id)))
    ∧ (∀ s m, dictGet session_id o.sessions = some s →
        dictGet session_id o.machines = some m →
        action ∉ get_valid_actions m →
        process_action o session_id action data grading =
          (o, .error (.invalidStateTransition m.current_state.value
                        ("action: " ++ action)))) := by
  constructor
  · intro h
    simp [process_action, h]
  · intro s m hs hm hact
    have hc : (get_valid_actions m).contains action = false := by
      rw [← Bool.not_eq_true, list_contains_iff_mem]
      exact hact
    simp only [process_action, hs, hm, hc]
    simp

/-- Witness for C2: on `sampleOrch` (state `CASE_LOADED`, whose only valid
action is `start_questions`), the action `submit_answer` is rejected with
`InvalidStateTransition`, and a lookup of a fresh id raises
`SessionNotFoundError`. -/
theorem process_action_error_paths_witness :
    (process_action sampleOrch "missing" "submit_answer" ⟨"", ""⟩ (.error "e") =
      (sampleOrch, .error (.sessionNotFound "missing")))
    ∧ (process_action sampleOrch "s1" "submit_answer" ⟨"", ""⟩ (.error "e") =
        (sampleOrch, .error (.invalidStateTransition "case_loaded"
                               "action: submit_answer"))) :=
  ⟨(process_action_error_paths sampleOrch "missing" "submit_answer" ⟨"", ""⟩
      (.error "e")).1 (by decide),
   (process_action_error_paths sampleOrch "s1" "submit_answer" ⟨"", ""⟩
      (.error "e")).2 sampleSession machineCaseLoaded (by decide) (by decide)
      (by decide)⟩

/-- C1 (code-bug evidence): for every `submit_answer` invocation whose
grading succeeds, the handler takes the claimed branch decision (follow-up
below the threshold, index increment otherwise) but then reaches the broken
persist call `self.session_manager.update_session(session_id, session_data)`
(lines 299/311/320) and raises `TypeError` — so it never returns the
`follow_up_needed` / `next_question` / `complete` result echoing score and
feedback that the claim describes, and for ANY grading outcome the sessions
store (hence the persisted `current_question_index`) is left untouched. -/
theorem submit_answer_crashes_on_success (o : Orchestrator) (session_id : String)
    (data : SubmitData) (s : SessionData) (m : FlowStateMachine) (g : GradeData) :
    (handle_submit_answer o session_id data s m (.ok g)).2 =
      .error TYPE_ERROR_UPDATE ∧
    (∀ grading : Except String GradeData,
      (handle_submit_answer o session_id data s m grading).1.sessions =
        o.sessions) := by
  constructor
  · by_cases hlt : g.score < o.follow_up_threshold
    · simp [handle_submit_answer, hlt]
    · by_cases h2 : s.current_question_index + 1 < s.total_questions
      · simp [handle_submit_answer, hlt, h2, SessionData.add_answer,
          SessionData.add_grade]
      · simp [handle_submit_answer, hlt, h2, SessionData.add_answer,
          SessionData.add_grade]
  · intro grading
    cases grading with
    | error e => simp [handle_submit_answer]
    | ok g' =>
        by_cases hlt : g'.score < o.follow_up_threshold
        · simp [handle_submit_answer, hlt]
        · by_cases h2 : s.current_question_index + 1 < s.total_questions
          · simp [handle_submit_answer, hlt, h2, SessionData.add_answer,
              SessionData.add_grade]
          · simp [handle_submit_answer, hlt, h2, SessionData.add_answer,
              SessionData.add_grade]

/-- C4 (amended): a failed provider call is surfaced as a structured
`errorResult` and never records a grade or moves the question index — but
the two handlers differ on the state machine.  `get_question` returns the
error before touching machine or store, so the state is unchanged and the
action can be retried.  `submit_answer`, however, transitions the machine to
`GRADING_ANSWER` (and records the answer) before calling the grading
provider, so on a grading failure the machine has already advanced (the
store is not updated). -/
theorem provider_failure_results (o : Orchestrator) (session_id : String)
    (data : SubmitData) (s : SessionData) (m : FlowStateMachine) (e : String) :
    (get_next_question s = .failure e →
      handle_get_question o session_id s m =
        (o, .ok (.errorResult ("Failed to get question: " ++ e))))
    ∧ ((handle_submit_answer o session_id data s m (.error e)).2 =
        .ok (.errorResult ("Failed to grade answer: " ++ e)))
    ∧ ((handle_submit_answer o session_id data s m (.error e)).1.sessions =
        o.sessions)
    ∧ (dictGet session_id
        (handle_submit_answer o session_id data s m (.error e)).1.machines =
        some (transition m .GRADING_ANSWER "submit_answer").1) := by
  refine ⟨?_, ?_, ?_, ?_⟩
  · intro h
    simp [handle_get_question, h]
  · simp [handle_submit_answer]
  · simp [handle_submit_answer]
  · simp [handle_submit_answer, dictGet_dictSet_self]

/-- Witness for C4's amended theorem: `sampleSession` has no available
questions, so `get_next_question` fails, and the handler surfaces it as a
structured error leaving the orchestrator untouched. -/
theorem provider_failure_results_witness :
    handle_get_question sampleOrch "s1" sampleSession machineCaseLoaded =
      (sampleOrch, .ok (.errorResult
        "Failed to get question: No questions available. Please load case questions first.")) :=
  (provider_failure_results sampleOrch "s1" ⟨"", ""⟩ sampleSession
      machineCaseLoaded
      "No questions available. Please load case questions first.").1 (by decide)

/-- C4 counterexample: with the machine in `AWAITING_ANSWER`, a grading
failure inside `submit_answer` returns `{status: "error"}` — but the flow
state machine for the session is now in `GRADING_ANSWER`, not the
`AWAITING_ANSWER` it was in before the call, refuting "the flow state
machine's current state is the same after the call as it was before the
call, so the client can retry the same action" (and indeed `submit_answer`
is not a valid action of `GRADING_ANSWER`). -/
theorem submit_answer_failure_advances_machine :
    (handle_submit_answer sampleOrch "s1" ⟨"an answer", "q1"⟩ sampleSession
        machineAwaiting (.error "OpenAI timeout")).2 =
      .ok (.errorResult "Failed to grade answer: OpenAI timeout") ∧
    dictGet "s1" (handle_submit_answer sampleOrch "s1" ⟨"an answer", "q1"⟩
        sampleSession machineAwaiting (.error "OpenAI timeout")).1.machines =
      some ⟨.GRADING_ANSWER, [.AWAITING_ANSWER, .GRADING_ANSWER]⟩ ∧
    FlowState.GRADING_ANSWER ≠ FlowState.AWAITING_ANSWER ∧
    get_valid_actions ⟨.GRADING_ANSWER, [.AWAITING_ANSWER, .GRADING_ANSWER]⟩ =
      ["grade_complete", "error"] :=
  ⟨rfl, by decide, by decide, by decide⟩

/-- C9 (code-bug evidence): no dispatched handler ever persists the session:
every `process_action` call leaves the sessions store unchanged (each
persist call `self.session_manager.update_session(session_id, session_data)`
raises `TypeError` before writing), and the only results a handler RETURNS
are the structured provider-failure errors — every success path raises
instead of returning, so no handler "persists the updated Session via the
store before returning". -/
theorem handlers_never_persist (o : Orchestrator) (session_id action : String)
    (data : SubmitData) (grading : Except String GradeData) :
    (process_action o session_id action data grading).1.sessions = o.sessions ∧
    (∀ r, (process_action o session_id action data grading).2 = .ok r →
      ∃ msg, r = .errorResult msg) := by
  cases hsx : dictGet session_id o.sessions with
  | none => simp [process_action, hsx]
  | some s =>
    cases hm : dictGet session_id o.machines with
    | none => simp [process_action, hsx, hm]
    | some m =>
      cases hc : (get_valid_actions m).contains action with
      | false =>
          have hnm : ¬ action ∈ get_valid_actions m := by
            intro hmem
            rw [← list_contains_iff_mem, hc] at hmem
            exact Bool.noConfusion hmem
          simp [process_action, hsx, hm, hnm]
      | true =>
        simp only [process_action, hsx, hm, hc, if_true]
        by_cases ha1 : action = "start_questions"
        · simp [ha1, handle_start_questions, Except.mapError]
        · rw [if_neg ha1]
          by_cases ha2 : action = "get_question"
          · rw [if_pos ha2]
            cases hq : get_next_question s with
            | failure e =>
                refine ⟨by simp [handle_get_question, hq], ?_⟩
                intro r hr
                simp [handle_get_question, hq, Except.mapError] at hr
                exact ⟨_, hr.symm⟩
            | completeMarker =>
                simp [handle_get_question, hq, Except.mapError]
            | nextQuestion s2 q n t =>
                simp [handle_get_question, hq, Except.mapError]
          · rw [if_neg ha2]
            by_cases ha3 : action = "submit_answer"
            · rw [if_pos ha3]
              cases grading with
              | error e =>
                  refine ⟨by simp [handle_submit_answer], ?_⟩
                  intro r hr
                  simp [handle_submit_answer, Except.mapError] at hr
                  exact ⟨_, hr.symm⟩
              | ok g =>
                  by_cases hlt : g.score < o.follow_up_threshold
                  · simp [handle_submit_answer, hlt, Except.mapError]
                  · by_cases h2 : s.current_question_index + 1 < s.total_questions
                    · simp [handle_submit_answer, hlt, h2, SessionData.add_answer,
                        SessionData.add_grade, Except.mapError]
                    · simp [handle_submit_answer, hlt, h2, SessionData.add_answer,
                        SessionData.add_grade, Except.mapError]
            · rw [if_neg ha3]
              by_cases ha4 : action = "get_feedback"
              · simp [ha4, handle_get_feedback, Except.mapError]
              · simp [ha4]

/-- An orchestrator whose session awaits an answer. -/
def sampleOrchAwait : Orchestrator :=
  { sessions := [("s1", sampleSession)]
    machines := [("s1", machineAwaiting)]
    follow_up_threshold := 0 }

/-- Witness for C9's theorem: the one kind of result a dispatched handler can
return — the structured grading-failure error of `submit_answer` — is an
`errorResult`, and the store is unchanged. -/
theorem handlers_never_persist_witness :
    (process_action sampleOrchAwait "s1" "submit_answer" ⟨"an answer", "q1"⟩
        (.error "boom")).1.sessions = sampleOrchAwait.sessions ∧
    ∃ msg, (ActionResult.errorResult "Failed to grade answer: boom") =
      .errorResult msg :=
  ⟨(handlers_never_persist sampleOrchAwait "s1" "submit_answer" ⟨"an answer", "q1"⟩
      (.error "boom")).1,
   (handlers_never_persist sampleOrchAwait "s1" "submit_answer" ⟨"an answer", "q1"⟩
      (.error "boom")).2 (.errorResult "Failed to grade answer: boom") rfl⟩

/-- C3 (code-bug evidence): `start_session` stores the session through
`create_session` BEFORE validating the case and question loads.  When either
provider fails, the call raises — and the session for the generated id is
still in the store afterwards, contradicting the claim that no
partially-created session persists on `start_session` failure. -/
theorem start_session_failure_leaves_session :
    ((start_session Orchestrator.init "s1" "caseX" none
        ⟨false, "Case caseX not found", .ok []⟩).2 =
      .error "Failed to load case info: Case caseX not found") ∧
    (dictGet "s1" (start_session Orchestrator.init "s1" "caseX" none
        ⟨false, "Case caseX not found", .ok []⟩).1.sessions =
      some (SessionData.new "s1" "caseX" none)) ∧
    ((start_session Orchestrator.init "s1" "caseX" none
        ⟨true, "", .error "No questions found for case caseX"⟩).2 =
      .error "Failed to load questions: No questions found for case caseX") ∧
    (dictGet "s1" (start_session Orchestrator.init "s1" "caseX" none
        ⟨true, "", .error "No questions found for case caseX"⟩).1.sessions =
      some (SessionData.new "s1" "caseX" none)) :=
  ⟨rfl, by decide, rfl, by decide⟩

/-- The summed grade score of one category over (category, score) pairs. -/
def catSum (c : String) (l : List (String × ℚ)) : ℚ :=
  ((l.filter fun p => decide (p.1 = c)).map (·.2)).sum

/-- The number of grades of one category over (category, score) pairs. -/
def catCount (c : String) (l : List (String × ℚ)) : ℕ :=
  (l.filter fun p => decide (p.1 = c)).length

/-- Written from the spec's words, for comparison with
`get_category_scores`: the unweighted mean grade score of a category, over
the positionally paired (question category, grade score) list. -/
def categoryMeanSpec (l : List (String × ℚ)) (c : String) : ℚ :=
  catSum c l / (catCount c l : ℚ)

/-- Written from the spec's words, for comparison with `get_average_score`:
the unweighted arithmetic mean of the scores, `0.0` when there are none. -/
def overallMeanSpec (scores : List ℚ) : ℚ :=
  if scores = [] then 0 else scores.sum / (scores.length : ℚ)

theorem catSum_cons (c : String) (p : String × ℚ) (t : List (String × ℚ)) :
    catSum c (p :: t) = if p.1 = c then p.2 + catSum c t else catSum c t := by
  by_cases h : p.1 = c <;> simp [catSum, List.filter_cons, h]

theorem catCount_cons (c : String) (p : String × ℚ) (t : List (String × ℚ)) :
    catCount c (p :: t) = if p.1 = c then catCount c t + 1 else catCount c t := by
  by_cases h : p.1 = c <;> simp [catCount, List.filter_cons, h]

/-- How one loop iteration of `get_category_scores` changes the combined
(sum, count) dict at any key. -/
theorem dictGet_addCatScore (c cat : String) (sc : ℚ) (acc : List (String × ℚ × ℕ)) :
    dictGet c (addCatScore cat sc acc) =
      if cat = c then
        match dictGet c acc with
        | some e => some (e.1 + sc, e.2 + 1)
        | none => some (sc, 1)
      else dictGet c acc := by
  induction acc with
  | nil =>
      by_cases h : cat = c
      · simp [addCatScore, dictGet, h]
      · simp [addCatScore, dictGet, h]
  | cons e rest ih =>
      by_cases he : e.1 = cat
      · by_cases hc : cat = c
        · have hec : e.1 = c := he.trans hc
          simp [addCatScore, dictGet, he, hc, hec]
        · have hec : ¬(e.1 = c) := fun h => hc (he.symm.trans h)
          simp [addCatScore, dictGet, he, hc, hec]
      · by_cases hec : e.1 = c
        · have hc : ¬(cat = c) := fun h => he (by rw [hec, ← h])
          have hca : ¬(c = cat) := fun h => hc h.symm
          simp [addCatScore, dictGet, he, hec, hc, hca]
        · simp [addCatScore, dictGet, he, hec, ih]

/-- The accumulation loop of `get_category_scores`, characterised at any
key: the final entry combines what the accumulator held with the sum and
count of the matching pairs. -/
theorem dictGet_foldl_addCatScore (l : List (String × ℚ))
    (acc : List (String × ℚ × ℕ)) (c : String) :
    dictGet c (l.foldl (fun a p => addCatScore p.1 p.2 a) acc) =
      match dictGet c acc with
      | some e => some (e.1 + catSum c l, e.2 + catCount c l)
      | none =>
          if catCount c l = 0 then none
          else some (catSum c l, catCount c l) := by
  induction l generalizing acc with
  | nil =>
      cases h : dictGet c acc <;> simp [catSum, catCount, h]
  | cons p t ih =>
      rw [List.foldl_cons, ih, dictGet_addCatScore, catSum_cons, catCount_cons]
      by_cases hp : p.1 = c
      · cases h : dictGet c acc with
        | some e =>
            simp only [hp, if_true, eq_self_iff_true, h]
            rw [Option.some.injEq, Prod.mk.injEq]
            constructor
            · ring
            · omega
        | none =>
            have hcnt : ¬(catCount c t + 1 = 0) := Nat.succ_ne_zero _
            simp only [hp, if_true, eq_self_iff_true, h, hcnt, if_false]
            rw [Nat.add_comm 1 (catCount c t)]
      · cases h : dictGet c acc <;> simp [h, hp]

/-- `dictGet` commutes with the final division pass of
`get_category_scores`. -/
theorem dictGet_map_div (l : List (String × ℚ × ℕ)) (c : String) :
    dictGet c (l.map fun e => (e.1, e.2.1 / (e.2.2 : ℚ))) =
      (dictGet c l).map fun v => v.1 / (v.2 : ℚ) := by
  induction l with
  | nil => simp [dictGet]
  | cons e rest ih => by_cases h : e.1 = c <;> simp [dictGet, h, ih]

/-- C5 (code-bug evidence): the score computations the claim describes are
implemented correctly — `get_average_score` is the unweighted arithmetic
mean of all recorded grade scores (0.0 with none), and
`get_category_scores` maps exactly the categories occurring among the
positionally paired (question, grade) entries to their mean grade score —
but `end_session` itself raises the persist-call `TypeError` (line 178)
after computing them, leaving the orchestrator untouched: the summary is
never returned, the session is never stored as `COMPLETED`, and the
state-machine release at lines 181-182 is unreachable. -/
theorem end_session_scores_but_crashes (o : Orchestrator) (session_id : String)
    (s : SessionData) (hs : dictGet session_id o.sessions = some s) :
    s.get_average_score = overallMeanSpec (s.grades.map (·.score)) ∧
    (∀ c, dictGet c s.get_category_scores =
      if catCount c s.gradeCategoryPairs = 0 then none
      else some (categoryMeanSpec s.gradeCategoryPairs c)) ∧
    end_session o session_id = (o, .error (.typeError TYPE_ERROR_UPDATE)) := by
  refine ⟨?_, ?_, ?_⟩
  · by_cases hg : s.grades = []
    · simp [SessionData.get_average_score, overallMeanSpec, hg]
    · simp [SessionData.get_average_score, overallMeanSpec, hg,
        List.isEmpty_iff]
  · intro c
    rw [SessionData.get_category_scores, dictGet_map_div,
      dictGet_foldl_addCatScore]
    simp only [dictGet]
    by_cases h0 : catCount c s.gradeCategoryPairs = 0
    · simp [h0]
    · simp [h0, categoryMeanSpec]
  · simp [end_session, hs]

/-- Sample questions for a graded session. -/
def sampleQ1 : Question := ⟨"q1", "Image Interpretation", "Describe the findings."⟩

/-- Second sample question. -/
def sampleQ2 : Question := ⟨"q2", "Differential Diagnosis", "Give a differential."⟩

/-- A session with two positionally paired grades in two categories. -/
def sampleGradedSession : SessionData :=
  { SessionData.new "s2" "case001" none with
    questions_asked := [sampleQ1, sampleQ2]
    answers := [⟨"q1", "s2", "first answer"⟩, ⟨"q2", "s2", "second answer"⟩]
    grades := [⟨"q1", "q1", 1, "good", [], [], [], false⟩,
               ⟨"q2", "q2", 0, "weak", [], [], [], true⟩] }

/-- Orchestrator fixture holding the graded session. -/
def sampleGradedOrch : Orchestrator :=
  { sessions := [("s2", sampleGradedSession)]
    machines := [("s2", machineAwaiting)]
    follow_up_threshold := 0 }

/-- Witness for C5's theorem on `sampleGradedOrch`. -/
theorem end_session_scores_but_crashes_witness :
    sampleGradedSession.get_average_score =
      overallMeanSpec (sampleGradedSession.grades.map (·.score)) ∧
    (∀ c, dictGet c sampleGradedSession.get_category_scores =
      if catCount c sampleGradedSession.gradeCategoryPairs = 0 then none
      else some (categoryMeanSpec sampleGradedSession.gradeCategoryPairs c)) ∧
    end_session sampleGradedOrch "s2" =
      (sampleGradedOrch, .error (.typeError TYPE_ERROR_UPDATE)) :=
  end_session_scores_but_crashes sampleGradedOrch "s2" sampleGradedSession
    (by decide)

/-- C6 (code-bug evidence): the AIGradingService fallback grader does score
the skip sentinel 0 with feedback stating the skip — but `GradingAgentV2`
(the grading agent the orchestrator actually calls for `submit_answer`)
answers EVERY failed OpenAI call, skipped answers included, with its fixed
fallback grading of score 0.75 and generic feedback, so a skipped answer
does not score 0 on that grading path. -/
theorem skipped_answer_scores :
    strTrim "[SKIPPED]" = SKIP_SENTINEL ∧
    dictGet "Image Interpretation" (fallback_category_scores [(1, "[SKIPPED]")]) =
      some ⟨0, 0, skipped_feedback⟩ ∧
    get_fallback_grading.score = 3/4 ∧
    (3/4 : ℚ) ≠ 0 :=
  ⟨by decide, by decide, rfl, by norm_num⟩

theorem mem_insertByScore {z x : WeakCategory} {l : List WeakCategory}
    (h : z ∈ insertByScore x l) : z = x ∨ z ∈ l := by
  induction l with
  | nil => simpa [insertByScore] using h
  | cons y ys ih =>
      rw [insertByScore] at h
      by_cases hc : x.score ≤ y.score
      · rw [if_pos hc] at h
        exact List.mem_cons.mp h
      · rw [if_neg hc] at h
        rcases List.mem_cons.mp h with h1 | h2
        · exact Or.inr (by simp [h1])
        · rcases ih h2 with h3 | h4
          · exact Or.inl h3
          · exact Or.inr (by simp [h4])

theorem sorted_insertByScore (x : WeakCategory) (l : List WeakCategory)
    (h : l.Pairwise fun a b => a.score ≤ b.score) :
    (insertByScore x l).Pairwise fun a b => a.score ≤ b.score := by
  induction l with
  | nil => simp [insertByScore]
  | cons y ys ih =>
      rw [insertByScore]
      rcases List.pairwise_cons.mp h with ⟨hy, hys⟩
      by_cases hc : x.score ≤ y.score
      · rw [if_pos hc]
        refine List.Pairwise.cons ?_ h
        intro b hb
        rcases List.mem_cons.mp hb with h1 | h2
        · exact h1 ▸ hc
        · exact le_trans hc (hy b h2)
      · rw [if_neg hc]
        refine List.Pairwise.cons ?_ (ih hys)
        intro b hb
        rcases mem_insertByScore hb with h1 | h2
        · exact h1 ▸ le_of_lt (lt_of_not_le hc)
        · exact hy b h2

theorem sorted_sortByScore (l : List WeakCategory) :
    (sortByScore l).Pairwise fun a b => a.score ≤ b.score := by
  induction l with
  | nil => simp [sortByScore]
  | cons x xs ih => exact sorted_insertByScore x _ ih

theorem mem_sortByScore {z : WeakCategory} {l : List WeakCategory}
    (h : z ∈ sortByScore l) : z ∈ l := by
  induction l with
  | nil => simp [sortByScore] at h
  | cons x xs ih =>
      rw [sortByScore] at h
      rcases mem_insertByScore h with h1 | h2
      · simp [h1]
      · simp [ih h2]

/-- C7 (amended): on the GENERATIVE path the follow-up categories are
exactly the at-most-two lowest-scoring below-threshold categories, in
ascending score order with ties kept stable — in particular the claim's
example scores select exactly D then B.  On the FALLBACK path, however,
a follow-up is generated for EVERY below-threshold category, in dict order,
with no sorting and no limit of two (each generated entry is still below
the threshold). -/
theorem follow_up_selection (category_scores : List (String × ℚ × String)) :
    (selected_weak_categories category_scores).length ≤ 2 ∧
    (∀ w ∈ selected_weak_categories category_scores, w.score < 70) ∧
    (selected_weak_categories category_scores).Pairwise
      (fun a b => a.score ≤ b.score) ∧
    ((selected_weak_categories
        [("A", 90, "fa"), ("B", 40, "fb"), ("C", 60, "fc"), ("D", 30, "fd")]).map
      (·.category) = ["D", "B"]) ∧
    (∀ (cs : List (String × CatScore)) (cid : String),
      (fallback_follow_ups cs cid).length =
        (cs.filter fun p => decide (p.2.percentage < 70)).length ∧
      ∀ e ∈ fallback_follow_ups cs cid, e.2.2 < 70) := by
  refine ⟨?_, ?_, ?_, by decide, ?_⟩
  · rw [selected_weak_categories, List.length_take]
    exact min_le_left _ _
  · intro w hw
    have hmem : w ∈ sortByScore (weak_categories category_scores) :=
      (List.take_sublist _ _).subset hw
    have hmem2 : w ∈ weak_categories category_scores := mem_sortByScore hmem
    rw [weak_categories] at hmem2
    rcases List.mem_map.mp hmem2 with ⟨p, hp, hpe⟩
    rcases List.mem_filter.mp hp with ⟨_, hplt⟩
    rw [← hpe]
    simpa using hplt
  · exact List.Pairwise.sublist (List.take_sublist _ _)
      (sorted_sortByScore (weak_categories category_scores))
  · intro cs cid
    constructor
    · rw [fallback_follow_ups, List.length_map]
    · intro e he
      rw [fallback_follow_ups] at he
      rcases List.mem_map.mp he with ⟨p, hp, hpe⟩
      rcases List.mem_filter.mp hp with ⟨_, hplt⟩
      rw [← hpe]
      simpa using hplt

/-- Witness for C7's amended theorem, at the claim's example scores: the
selected element D is indeed below the threshold. -/
theorem follow_up_selection_witness :
    (⟨"D", 30, "fd"⟩ : WeakCategory) ∈
      selected_weak_categories
        [("A", 90, "fa"), ("B", 40, "fb"), ("C", 60, "fc"), ("D", 30, "fd")] ∧
    (⟨"D", 30, "fd"⟩ : WeakCategory).score < 70 :=
  ⟨by decide,
   (follow_up_selection
      [("A", 90, "fa"), ("B", 40, "fb"), ("C", 60, "fc"), ("D", 30, "fd")]).2.1
     ⟨"D", 30, "fd"⟩ (by decide)⟩

/-- C7 counterexample: on the fallback path, the claim's example scores
(as the percentages the fallback uses) generate follow-ups for B, C and D —
all three below-threshold categories in dict order — not for exactly D then
B as the claim states for every path. -/
theorem fallback_follow_ups_not_limited :
    (fallback_follow_ups
        [("A", ⟨90, 90, "fa"⟩), ("B", ⟨40, 40, "fb"⟩),
         ("C", ⟨60, 60, "fc"⟩), ("D", ⟨30, 30, "fd"⟩)] "case001").map (·.1) =
      ["B", "C", "D"] ∧
    (["B", "C", "D"] : List String) ≠ ["D", "B"] := by
  decide

/-- C10 (amended): the fallback content scorer is a total function of the
answer text; empty or whitespace-only answers score 0; answers whose
lowercased text matches more than two gibberish terms score 0 as well, even
when shorter than 10 words; the remaining answers of fewer than 10 words
score the flat value 25; longer answers are scored from word count and
matched medical-term count; and every score it can produce is at most 85,
strictly below the primary path's top scores. -/
theorem content_score_characterisation (answer : String) :
    (strTrim answer = "" → calculate_content_score answer = 0) ∧
    (strTrim answer ≠ "" →
      2 < (gibberish_terms.filter fun t =>
            strContainsSub (strTrim (strToLower answer)) t).length →
      calculate_content_score answer = 0) ∧
    (strTrim answer ≠ "" →
      (gibberish_terms.filter fun t =>
        strContainsSub (strTrim (strToLower answer)) t).length ≤ 2 →
      wordCount answer < 10 →
      calculate_content_score answer = 25) ∧
    calculate_content_score answer ≤ 85 := by
  refine ⟨?_, ?_, ?_, ?_⟩
  · intro h
    simp [calculate_content_score, h]
  · intro h1 h2
    simp [calculate_content_score, h1, h2]
  · intro h1 h2 h3
    simp [calculate_content_score, h1, h3, Nat.not_lt.mpr h2]
  · simp only [calculate_content_score]
    split_ifs <;> omega

/-- Witness for C10's amended theorem at concrete answers: an empty answer
scores 0 and a short clean answer scores the flat 25. -/
theorem content_score_characterisation_witness :
    calculate_content_score "   " = 0 ∧
    calculate_content_score "patient has cancer" = 25 :=
  ⟨(content_score_characterisation "   ").1 (by decide),
   (content_score_characterisation "patient has cancer").2.2.1 (by decide)
     (by decide) (by decide)⟩

/-- C10 counterexample: "lorem ipsum dolor" is a non-empty three-word answer
— fewer than 10 words — yet it scores 0 (the gibberish check fires before
the short-answer flat value), while the equally short "patient has cancer"
scores 25; so answers of fewer than 10 words do not all score one low flat
value. -/
theorem short_answers_not_flat_scored :
    wordCount "lorem ipsum dolor" < 10 ∧
    strTrim "lorem ipsum dolor" ≠ "" ∧
    calculate_content_score "lorem ipsum dolor" = 0 ∧
    wordCount "patient has cancer" < 10 ∧
    strTrim "patient has cancer" ≠ "" ∧
    calculate_content_score "patient has cancer" = 25 ∧
    (0 : ℕ) ≠ 25 := by
  decide

end Casewise
